import Mathlib

/-!
Shallow embedding of the dual-zone HVAC controller
(src/custom_components/dual_zone_hvac/__init__.py) and proofs about it.

Conventions of the embedding:
* Python floats are modelled as rationals (ℚ); `float('inf')` values produced
  by `calculate_time_to_target` are modelled by `Option ℚ` with `none`
  standing for positive infinity.
* The controller object is a record `CState`; every method that mutates
  `self` becomes a function `CState → ... → CState`.
* Wall-clock reads (`time.time()`) become an explicit `now : ℚ` parameter.
  A single control tick reads the clock several times; all those reads lie
  between the previous tick and the next, so the embedding uses one `now`
  per tick and the reachability relation only assumes tick times are
  monotone.
* `deque(maxlen = n)` becomes a list that is truncated on the left after
  each append (`dequeAppend`).
-/

namespace DualZoneHVAC

/-- Internal operating modes, the `Mode` literal type of the source. -/
inductive Mode
  | heat
  | cool
  | dry
  | fan_only
  | off
deriving DecidableEq

/-- User-selected HVAC modes stored in `ZoneState.hvac_mode`; `heat_cool`
is the auto (range) mode. -/
inductive HvacMode
  | heat
  | cool
  | heat_cool
  | dry
  | fan_only
  | off
deriving DecidableEq

/-- Fan speeds, the `FanSpeed` literal type of the source. -/
inductive FanSpeed
  | quiet
  | low
  | medium
  | high
deriving DecidableEq

/-- Zone identifiers `zone1` / `zone2`. -/
inductive Zone
  | z1
  | z2
deriving DecidableEq

/-- The other zone (`other_zone = 'zone2' if zone == 'zone1' else 'zone1'`). -/
def Zone.other : Zone → Zone
  | .z1 => .z2
  | .z2 => .z1

/-- The `FAN_SPEED_LEVELS` dictionary. -/
def FAN_SPEED_LEVELS : FanSpeed → Nat
  | .quiet => 0
  | .low => 1
  | .medium => 2
  | .high => 3

/-- The `speed_options = ['quiet', 'low', 'medium', 'high']` list, viewed as
indexing; indices are always in `[0, 3]` at the call sites. -/
def speed_options : Nat → FanSpeed
  | 0 => .quiet
  | 1 => .low
  | 2 => .medium
  | _ + 3 => .high

/-- Append to a `deque(maxlen = maxlen)`: add on the right, drop from the
left once the capacity is exceeded. -/
def dequeAppend {α : Type} (maxlen : Nat) (xs : List α) (x : α) : List α :=
  let ys := xs ++ [x]
  ys.drop (ys.length - maxlen)

/-- The settings loaded in `DualZoneHVACController.__init__`; the defaults
are the `DEFAULT_*` constants of the source. -/
structure Config where
  deadband : ℚ := 1/2
  min_offset : ℚ := 3/10
  conflict_threshold : ℚ := 2
  update_interval : ℚ := 60
  max_starts_per_hour : Nat := 3
  min_compressor_runtime : ℚ := 180
  min_compressor_off_time : ℚ := 180

/-- The `ZoneState` dataclass (the `climate_entity` string is irrelevant to
the control algorithm and omitted). -/
structure ZoneState where
  temperature_history : List ℚ := []
  mode_history : List Mode := []
  last_mode : Mode := .off
  target_setpoint : ℚ := 70
  target_temp_high : ℚ := 72
  target_temp_low : ℚ := 68
  hvac_mode : HvacMode := .heat
  nominal_fan_speed : FanSpeed := .medium

/-- The learned rates and the per-kind rate sample accumulators
(`self.heating_rate`, `self.cooling_rate`, `self.leakage_rate`,
`self.rate_samples`), flattened per zone.  The sample lists are plain
Python lists in the source: appends never truncate them. -/
structure RateState where
  heating_rate1 : ℚ := 0
  heating_rate2 : ℚ := 0
  cooling_rate1 : ℚ := 0
  cooling_rate2 : ℚ := 0
  leakage_rate1 : ℚ := 0
  leakage_rate2 : ℚ := 0
  heating_samples1 : List ℚ := []
  heating_samples2 : List ℚ := []
  cooling_samples1 : List ℚ := []
  cooling_samples2 : List ℚ := []
  leakage_samples1 : List ℚ := []
  leakage_samples2 : List ℚ := []

/-- Compressor bookkeeping (`self.compressor_start_times` is a
`deque(maxlen=20)`). -/
structure CompressorState where
  compressor_start_times : List ℚ := []
  compressor_running : Bool := false
  compressor_last_start_time : Option ℚ := none
  compressor_last_stop_time : Option ℚ := none

/-- The whole mutable state of `DualZoneHVACController`. -/
structure CState where
  cfg : Config
  zone1 : ZoneState
  zone2 : ZoneState
  learn : RateState
  comp : CompressorState
  enabled : Bool := true
  iteration_count : Nat := 0

/-- `self.zones[zone]`. -/
def CState.zone (s : CState) : Zone → ZoneState
  | .z1 => s.zone1
  | .z2 => s.zone2

/-- Replace `self.zones[zone]`. -/
def CState.setZone (s : CState) : Zone → ZoneState → CState
  | .z1, zs => { s with zone1 := zs }
  | .z2, zs => { s with zone2 := zs }

/-- `self.heating_rate[zone]`. -/
def heating_rate (s : CState) : Zone → ℚ
  | .z1 => s.learn.heating_rate1
  | .z2 => s.learn.heating_rate2

/-- `self.cooling_rate[zone]`. -/
def cooling_rate (s : CState) : Zone → ℚ
  | .z1 => s.learn.cooling_rate1
  | .z2 => s.learn.cooling_rate2

/-- `self.leakage_rate[zone]`. -/
def leakage_rate (s : CState) : Zone → ℚ
  | .z1 => s.learn.leakage_rate1
  | .z2 => s.learn.leakage_rate2

/-- `self.rate_samples['heating'][zone]`. -/
def heating_samples (s : CState) : Zone → List ℚ
  | .z1 => s.learn.heating_samples1
  | .z2 => s.learn.heating_samples2

/-- `self.rate_samples['cooling'][zone]`. -/
def cooling_samples (s : CState) : Zone → List ℚ
  | .z1 => s.learn.cooling_samples1
  | .z2 => s.learn.cooling_samples2

/-- `self.rate_samples['leakage'][zone]`. -/
def leakage_samples (s : CState) : Zone → List ℚ
  | .z1 => s.learn.leakage_samples1
  | .z2 => s.learn.leakage_samples2

/-- Write `self.heating_rate[zone]`. -/
def set_heating_rate (s : CState) (z : Zone) (v : ℚ) : CState :=
  match z with
  | .z1 => { s with learn := { s.learn with heating_rate1 := v } }
  | .z2 => { s with learn := { s.learn with heating_rate2 := v } }

/-- Write `self.cooling_rate[zone]`. -/
def set_cooling_rate (s : CState) (z : Zone) (v : ℚ) : CState :=
  match z with
  | .z1 => { s with learn := { s.learn with cooling_rate1 := v } }
  | .z2 => { s with learn := { s.learn with cooling_rate2 := v } }

/-- Write `self.leakage_rate[zone]`. -/
def set_leakage_rate (s : CState) (z : Zone) (v : ℚ) : CState :=
  match z with
  | .z1 => { s with learn := { s.learn with leakage_rate1 := v } }
  | .z2 => { s with learn := { s.learn with leakage_rate2 := v } }

/-- `self.rate_samples['heating'][zone].append(x)` — a plain list append,
never truncated (see the source, `update_temperature_history`). -/
def push_heating_sample (s : CState) (z : Zone) (x : ℚ) : CState :=
  match z with
  | .z1 => { s with learn := { s.learn with heating_samples1 := s.learn.heating_samples1 ++ [x] } }
  | .z2 => { s with learn := { s.learn with heating_samples2 := s.learn.heating_samples2 ++ [x] } }

/-- `self.rate_samples['cooling'][zone].append(x)`. -/
def push_cooling_sample (s : CState) (z : Zone) (x : ℚ) : CState :=
  match z with
  | .z1 => { s with learn := { s.learn with cooling_samples1 := s.learn.cooling_samples1 ++ [x] } }
  | .z2 => { s with learn := { s.learn with cooling_samples2 := s.learn.cooling_samples2 ++ [x] } }

/-- `self.rate_samples['leakage'][zone].append(x)`. -/
def push_leakage_sample (s : CState) (z : Zone) (x : ℚ) : CState :=
  match z with
  | .z1 => { s with learn := { s.learn with leakage_samples1 := s.learn.leakage_samples1 ++ [x] } }
  | .z2 => { s with learn := { s.learn with leakage_samples2 := s.learn.leakage_samples2 ++ [x] } }

/-- Python slice `samples[-n:]`. -/
def lastN {α : Type} (n : Nat) (xs : List α) : List α :=
  xs.drop (xs.length - n)

/-- `calculate_optimal_fan_speed` (zone and mode are explicit; the nominal
fan speed is read from the zone state, exactly as in the source). -/
def calculate_optimal_fan_speed (s : CState) (z : Zone) (mode : Mode)
    (temp_error : ℚ) (is_lead : Bool) (other_zone_mode : Mode) : FanSpeed :=
  let nominal_speed := (s.zone z).nominal_fan_speed
  let nominal_level := FAN_SPEED_LEVELS nominal_speed
  match mode with
  | .fan_only =>
      if other_zone_mode = .heat ∨ other_zone_mode = .cool then .quiet
      else nominal_speed
  | .off => .quiet
  | .heat =>
      if 5 < temp_error then .high
      else if 3 < temp_error then speed_options (min (nominal_level + 2) 3)
      else if 3/2 < temp_error then speed_options (min (nominal_level + 1) 3)
      else if is_lead then
        if temp_error < 1/2 then .quiet
        else speed_options (max (nominal_level - 2) 0)
      else speed_options (max (nominal_level - 1) 0)
  | .cool =>
      if 5 < temp_error then .high
      else if 3 < temp_error then speed_options (min (nominal_level + 2) 3)
      else if 3/2 < temp_error then speed_options (min (nominal_level + 1) 3)
      else if is_lead then
        if temp_error < 1/2 then .quiet
        else speed_options (max (nominal_level - 2) 0)
      else speed_options (max (nominal_level - 1) 0)
  | .dry => nominal_speed

/-- `determine_desired_mode`; `deadband_override = none` means the Python
default argument (fall back to the configured deadband). -/
def determine_desired_mode (s : CState) (z : Zone) (current_temp : ℚ)
    (deadband_override : Option ℚ) : Mode :=
  let deadband := deadband_override.getD s.cfg.deadband
  let zone_state := s.zone z
  match zone_state.hvac_mode with
  | .off => .off
  | .heat_cool =>
      if current_temp < zone_state.target_temp_low - deadband then .heat
      else if zone_state.target_temp_high + deadband < current_temp then .cool
      else .fan_only
  | .heat =>
      if deadband < zone_state.target_setpoint - current_temp then .heat
      else .fan_only
  | .cool =>
      if zone_state.target_setpoint - current_temp < -deadband then .cool
      else .fan_only
  | .dry =>
      if |zone_state.target_setpoint - current_temp| < 5 then .dry
      else .fan_only
  | .fan_only => .fan_only

/-- Core of `count_recent_starts`: `sum(1 for t in times if t > now - 3600)`. -/
def count_recent_starts_list (now : ℚ) (times : List ℚ) : Nat :=
  times.countP (fun t => decide (now - 3600 < t))

/-- `count_recent_starts` (the `time.time()` read is the `now` argument). -/
def count_recent_starts (s : CState) (now : ℚ) : Nat :=
  count_recent_starts_list now s.comp.compressor_start_times

/-- `get_dynamic_deadband`: widen the deadband by the factor 3.0 once the
recent start count reaches `max_starts_per_hour`. -/
def get_dynamic_deadband (s : CState) (now : ℚ) : ℚ :=
  if s.cfg.max_starts_per_hour ≤ count_recent_starts s now then s.cfg.deadband * 3
  else s.cfg.deadband

/-- Whether a single mode keeps the compressor busy (`heat`/`cool`/`dry`). -/
def Mode.isCompressorMode : Mode → Bool
  | .heat => true
  | .cool => true
  | .dry => true
  | .fan_only => false
  | .off => false

/-- `is_compressor_running(mode1, mode2)`. -/
def is_compressor_running (mode1 mode2 : Mode) : Bool :=
  mode1.isCompressorMode || mode2.isCompressorMode

/-- `enforce_minimum_runtime`: the 3-minute rule (minimum off-time veto,
then minimum-runtime override with the previous tick's modes). -/
def enforce_minimum_runtime (s : CState) (now : ℚ) (mode1 mode2 : Mode) :
    Mode × Mode :=
  let would_start := is_compressor_running mode1 mode2 && !s.comp.compressor_running
  let would_stop := !(is_compressor_running mode1 mode2) && s.comp.compressor_running
  let veto_start :=
    match s.comp.compressor_last_stop_time with
    | some p => would_start && decide (now - p < s.cfg.min_compressor_off_time)
    | none => false
  if veto_start then (.fan_only, .fan_only)
  else
    let veto_stop :=
      match s.comp.compressor_last_start_time with
      | some st => would_stop && decide (now - st < s.cfg.min_compressor_runtime)
      | none => false
    if veto_stop then (s.zone1.last_mode, s.zone2.last_mode)
    else (mode1, mode2)

/-- `modes_conflict`: heat conflicts with cool and with dry; nothing else
conflicts. -/
def modes_conflict : Mode → Mode → Bool
  | .heat, .cool => true
  | .cool, .heat => true
  | .heat, .dry => true
  | .dry, .heat => true
  | _, _ => false

/-- The two active rate kinds handled by `_update_rate`. -/
inductive ActiveKind
  | heating
  | cooling
deriving DecidableEq

/-- The private `_update_rate`: once a window has at least 3 samples,
average the last 5, normalize to per-minute, and blend 70/30 into the rate
(first observation seeds it). -/
def update_rate (s : CState) (z : Zone) (rate_type : ActiveKind) : CState :=
  let samples :=
    match rate_type with
    | .heating => heating_samples s z
    | .cooling => cooling_samples s z
  if 3 ≤ samples.length then
    let recent := lastN 5 samples
    let avg0 := recent.sum / (recent.length : ℚ)
    let avg_rate := avg0 * (60 / s.cfg.update_interval)
    match rate_type with
    | .heating =>
        if heating_rate s z = 0 then set_heating_rate s z avg_rate
        else set_heating_rate s z (7/10 * heating_rate s z + 3/10 * avg_rate)
    | .cooling =>
        if cooling_rate s z = 0 then set_cooling_rate s z avg_rate
        else set_cooling_rate s z (7/10 * cooling_rate s z + 3/10 * avg_rate)
  else s

/-- The private `_update_leakage_rate`: at least 2 samples, average the last
3, same normalization and 70/30 blend. -/
def update_leakage_rate (s : CState) (z : Zone) : CState :=
  let samples := leakage_samples s z
  if 2 ≤ samples.length then
    let recent := lastN 3 samples
    let avg0 := recent.sum / (recent.length : ℚ)
    let avg_rate := avg0 * (60 / s.cfg.update_interval)
    if leakage_rate s z = 0 then set_leakage_rate s z avg_rate
    else set_leakage_rate s z (7/10 * leakage_rate s z + 3/10 * avg_rate)
  else s

/-- `update_temperature_history`: append to the bounded histories, then
record a heating / cooling / leakage sample from the latest delta and
update the corresponding learned rate. -/
def update_temperature_history (s : CState) (z : Zone) (temp : ℚ)
    (mode : Mode) : CState :=
  let zs := s.zone z
  let th := dequeAppend 10 zs.temperature_history temp
  let mh := dequeAppend 10 zs.mode_history mode
  let s1 := s.setZone z { zs with temperature_history := th, mode_history := mh }
  if th.length < 2 then s1
  else
    let temp_change := th.getD (th.length - 1) 0 - th.getD (th.length - 2) 0
    let prev_mode := if 2 ≤ mh.length then mh.getD (mh.length - 2) mode else mode
    let other_mode := (s1.zone z.other).last_mode
    if prev_mode = .heat ∧ 0 < temp_change then
      update_rate (push_heating_sample s1 z temp_change) z .heating
    else if prev_mode = .cool ∧ temp_change < 0 then
      update_rate (push_cooling_sample s1 z |temp_change|) z .cooling
    else if prev_mode = .fan_only ∧ (other_mode = .heat ∨ other_mode = .cool) then
      if 1/20 < |temp_change| then
        update_leakage_rate (push_leakage_sample s1 z |temp_change|) z
      else s1
    else s1

/-- Estimated time to target; `none` is `float('inf')`. -/
abbrev ETime := Option ℚ

/-- The comparison `time_a < time_b and time_a != float('inf')` used by the
control loop (with `none` as infinity). -/
def etaLt : ETime → ETime → Bool
  | some a, some b => decide (a < b)
  | some _, none => true
  | none, _ => false

/-- `time_b - time_a` on extended times; at the call sites the subtrahend is
always finite and the minuend may be infinite. -/
def etaSub : ETime → ETime → ETime
  | none, _ => none
  | some b, some a => some (b - a)
  | some _, none => none

/-- `calculate_time_to_target`: `|target - current| / rate`, infinite when
the mode is not an active one or the learned rate is at most 0.001. -/
def calculate_time_to_target (s : CState) (z : Zone) (current_temp target_temp : ℚ)
    (mode : Mode) : ETime :=
  let error := |target_temp - current_temp|
  match mode with
  | .heat =>
      let rate := heating_rate s z
      if rate ≤ 1/1000 then none else some (error / rate)
  | .cool =>
      let rate := cooling_rate s z
      if rate ≤ 1/1000 then none else some (error / rate)
  | _ => none

/-- `calculate_compensation_offset`.  The `none` (infinite `time_diff`) case
returns 4: in Python float arithmetic the effective leakage rate is always
at least 0.01, so `leakage * inf = inf`, `max(inf, min_offset) = inf` and
`min(inf, 4.0) = 4.0`. -/
def calculate_compensation_offset (s : CState) (lead_zone : Zone)
    (time_diff : ETime) (mode : Mode) : ℚ :=
  match time_diff with
  | some td =>
      if td ≤ 0 then 0
      else
        let leakage0 := leakage_rate s lead_zone
        let leakage := if leakage0 < 1/100 then 3/20 else leakage0
        min (max (leakage * td) s.cfg.min_offset) 4
  | none => 4

/-- The sensor readings acquired at the top of one control tick:
the two temperatures (`none` when the climate entity is unavailable) and
the two current modes already converted by `_ha_mode_to_internal`
(an unavailable mode entity reads as `off`, it does not abort the tick). -/
structure TickInput where
  temp1 : Option ℚ
  temp2 : Option ℚ
  current_mode1 : Mode
  current_mode2 : Mode

/-- The actuation commands emitted at the end of a completed tick. -/
structure TickCmds where
  mode1 : Mode
  mode2 : Mode
  fan_speed1 : FanSpeed
  fan_speed2 : FanSpeed
  internal_setpoint1 : ℚ
  internal_setpoint2 : ℚ

/-- The conflict-resolution / leakage-compensation block of
`async_control_loop` (the big if/elif chain): from the two desired modes it
produces the modes to command plus both internal setpoints. -/
def plan_modes (s : CState) (t1 t2 : ℚ) (desired_mode1 desired_mode2 : Mode) :
    Mode × Mode × ℚ × ℚ :=
  let target1 := s.zone1.target_setpoint
  let target2 := s.zone2.target_setpoint
  if modes_conflict desired_mode1 desired_mode2 then
    let error1_abs := |target1 - t1|
    let error2_abs := |target2 - t2|
    if error2_abs + s.cfg.conflict_threshold < error1_abs then
      (desired_mode1, .fan_only, target1, target2)
    else if error1_abs + s.cfg.conflict_threshold < error2_abs then
      (.fan_only, desired_mode2, target1, target2)
    else
      (.fan_only, .fan_only, target1, target2)
  else if desired_mode1 = desired_mode2 ∧ (desired_mode1 = .heat ∨ desired_mode1 = .cool) then
    let time1 := calculate_time_to_target s .z1 t1 target1 desired_mode1
    let time2 := calculate_time_to_target s .z2 t2 target2 desired_mode2
    if etaLt time1 time2 then
      let offset := calculate_compensation_offset s .z1 (etaSub time2 time1) desired_mode1
      if desired_mode1 = .heat then
        (desired_mode1, desired_mode2, target1 - offset, target2)
      else
        (desired_mode1, desired_mode2, target1 + offset, target2)
    else if etaLt time2 time1 then
      let offset := calculate_compensation_offset s .z2 (etaSub time1 time2) desired_mode2
      if desired_mode2 = .heat then
        (desired_mode1, desired_mode2, target1, target2 - offset)
      else
        (desired_mode1, desired_mode2, target1, target2 + offset)
    else
      (desired_mode1, desired_mode2, target1, target2)
  else
    (desired_mode1, desired_mode2, target1, target2)

/-- The lead-zone determination of `async_control_loop` over the
post-CycleGuard modes: both active → smaller finite ETA leads; exactly one
active → it leads; otherwise no lead zone. -/
def determine_lead (s : CState) (t1 t2 : ℚ) (mode1 mode2 : Mode) : Bool × Bool :=
  if (mode1 = .heat ∨ mode1 = .cool) ∧ (mode2 = .heat ∨ mode2 = .cool) then
    let time1 := calculate_time_to_target s .z1 t1 s.zone1.target_setpoint mode1
    let time2 := calculate_time_to_target s .z2 t2 s.zone2.target_setpoint mode2
    if etaLt time1 time2 then (true, false)
    else if etaLt time2 time1 then (false, true)
    else (false, false)
  else if mode1 = .heat ∨ mode1 = .cool then (true, false)
  else if mode2 = .heat ∨ mode2 = .cool then (false, true)
  else (false, false)

/-- The bookkeeping performed after the commands are applied: write both
zones' `last_mode`, record a compressor start (append to the start deque,
set `compressor_last_start_time`) on a false→true transition, record a stop
on a true→false transition, and store the new `compressor_running`. -/
def update_after_apply (s : CState) (now : ℚ) (mode1 mode2 : Mode) : CState :=
  let s1 := { s with zone1 := { s.zone1 with last_mode := mode1 },
                     zone2 := { s.zone2 with last_mode := mode2 } }
  let new_compressor_state := is_compressor_running mode1 mode2
  if new_compressor_state && !s1.comp.compressor_running then
    { s1 with comp := { s1.comp with
        compressor_start_times := dequeAppend 20 s1.comp.compressor_start_times now,
        compressor_last_start_time := some now,
        compressor_running := new_compressor_state } }
  else if !new_compressor_state && s1.comp.compressor_running then
    { s1 with comp := { s1.comp with
        compressor_last_stop_time := some now,
        compressor_running := new_compressor_state } }
  else
    { s1 with comp := { s1.comp with compressor_running := new_compressor_state } }

/-- One invocation of `async_control_loop`.  A disabled controller returns
at once without touching anything; an unreadable temperature aborts the
tick right after the iteration counter was already incremented; otherwise
the full pipeline runs and the actuation commands are returned. -/
def control_loop (s : CState) (now : ℚ) (inp : TickInput) :
    CState × Option TickCmds :=
  if !s.enabled then (s, none)
  else
    let s0 := { s with iteration_count := s.iteration_count + 1 }
    match inp.temp1, inp.temp2 with
    | some t1, some t2 =>
        let sA := update_temperature_history s0 .z1 t1 inp.current_mode1
        let sB := update_temperature_history sA .z2 t2 inp.current_mode2
        let dynamic_deadband := get_dynamic_deadband sB now
        let desired_mode1 := determine_desired_mode sB .z1 t1 (some dynamic_deadband)
        let desired_mode2 := determine_desired_mode sB .z2 t2 (some dynamic_deadband)
        let plan := plan_modes sB t1 t2 desired_mode1 desired_mode2
        let mm := enforce_minimum_runtime sB now plan.1 plan.2.1
        let leads := determine_lead sB t1 t2 mm.1 mm.2
        let error1_abs := |sB.zone1.target_setpoint - t1|
        let error2_abs := |sB.zone2.target_setpoint - t2|
        let fan_speed1 := calculate_optimal_fan_speed sB .z1 mm.1 error1_abs leads.1 mm.2
        let fan_speed2 := calculate_optimal_fan_speed sB .z2 mm.2 error2_abs leads.2 mm.1
        let sC := update_after_apply sB now mm.1 mm.2
        (sC, some ⟨mm.1, mm.2, fan_speed1, fan_speed2, plan.2.2.1, plan.2.2.2⟩)
    | _, _ => (s0, none)

/-- The state built by `DualZoneHVACController.__init__`: empty histories,
both zones defaulting to the auto mode with the default nominal fan speed,
zero rates, empty sample lists, enabled, iteration 0, and an idle
compressor with no recorded transition.  The configured targets and
settings are arbitrary. -/
def InitState (s : CState) : Prop :=
  s.zone1.temperature_history = [] ∧ s.zone1.mode_history = [] ∧
  s.zone1.last_mode = .off ∧ s.zone1.hvac_mode = .heat_cool ∧
  s.zone1.nominal_fan_speed = .medium ∧
  s.zone2.temperature_history = [] ∧ s.zone2.mode_history = [] ∧
  s.zone2.last_mode = .off ∧ s.zone2.hvac_mode = .heat_cool ∧
  s.zone2.nominal_fan_speed = .medium ∧
  s.learn = {} ∧
  s.comp.compressor_start_times = [] ∧ s.comp.compressor_running = false ∧
  s.comp.compressor_last_start_time = none ∧
  s.comp.compressor_last_stop_time = none ∧
  s.enabled = true ∧ s.iteration_count = 0

/-- States reachable from construction by running control ticks at
monotonically non-decreasing times (the second component is the time of the
last tick, a lower bound for the next tick's clock reading). -/
inductive Reach : CState → ℚ → Prop
  | init (s : CState) (t : ℚ) : InitState s → Reach s t
  | step (s : CState) (t now : ℚ) (inp : TickInput) :
      Reach s t → t ≤ now → Reach (control_loop s now inp).1 now

/-- A concrete freshly-constructed controller: default settings, both
zones at the dataclass defaults except for the auto mode set by
`__init__`. -/
def c0 : CState :=
  { cfg := {}
    zone1 := { hvac_mode := .heat_cool }
    zone2 := { hvac_mode := .heat_cool }
    learn := {}
    comp := {} }

/-- A tick input whose first temperature is unavailable. -/
def inpBad : TickInput :=
  { temp1 := none, temp2 := some 65, current_mode1 := .off, current_mode2 := .off }

/-- Modelled from the spec, section 4.2 (ModeArbiter): the claimed
desired-mode case table, written from the specification's words so that it
can be compared with the source translation `determine_desired_mode`. -/
def modeArbiterSpec (zs : ZoneState) (current_temp deadband : ℚ) : Mode :=
  match zs.hvac_mode with
  | .off => .off
  | .heat_cool =>
      if current_temp < zs.target_temp_low - deadband then .heat
      else if zs.target_temp_high + deadband < current_temp then .cool
      else .fan_only
  | .heat =>
      if deadband < zs.target_setpoint - current_temp then .heat else .fan_only
  | .cool =>
      if zs.target_setpoint - current_temp < -deadband then .cool else .fan_only
  | .dry =>
      if |zs.target_setpoint - current_temp| < 5 then .dry else .fan_only
  | .fan_only => .fan_only

/-- C6: for every zone state, current temperature and effective deadband,
`determine_desired_mode` follows the specified case table exactly; in
particular a user mode of `off` yields `off` regardless of temperature. -/
theorem determine_desired_mode_follows_table (s : CState) (z : Zone)
    (current_temp deadband : ℚ) :
    determine_desired_mode s z current_temp (some deadband) =
      modeArbiterSpec (s.zone z) current_temp deadband := by
  cases h : (s.zone z).hvac_mode <;>
    simp [determine_desired_mode, modeArbiterSpec, h]

/-- C4: whenever leakage compensation is applied (positive, possibly
infinite, time difference), the returned offset lies in the closed interval
between `min_offset` and 4, for every learned leakage rate; the standing
assumption `min_offset ≤ 4` makes that interval well formed (the default is
0.3). -/
theorem compensation_offset_bounds (s : CState) (lead_zone : Zone)
    (time_diff : ETime) (mode : Mode)
    (hpos : ∀ td, time_diff = some td → 0 < td)
    (hmo : s.cfg.min_offset ≤ 4) :
    s.cfg.min_offset ≤ calculate_compensation_offset s lead_zone time_diff mode ∧
      calculate_compensation_offset s lead_zone time_diff mode ≤ 4 := by
  cases time_diff with
  | none => exact ⟨by simpa [calculate_compensation_offset] using hmo, le_of_eq rfl⟩
  | some td =>
      have h : ¬ td ≤ 0 := not_le.mpr (hpos td rfl)
      simp only [calculate_compensation_offset, if_neg h]
      exact ⟨le_min (le_max_right _ _) hmo, min_le_right _ _⟩

/-- Witness for C4 at the default configuration and a concrete positive
time difference. -/
theorem compensation_offset_bounds_witness :
    (∀ td : ℚ, (some (2:ℚ) : ETime) = some td → 0 < td) ∧
    c0.cfg.min_offset ≤ 4 ∧
    (c0.cfg.min_offset ≤ calculate_compensation_offset c0 .z1 (some 2) .heat ∧
      calculate_compensation_offset c0 .z1 (some 2) .heat ≤ 4) := by
  refine ⟨?_, ?_, compensation_offset_bounds c0 .z1 (some 2) .heat ?_ ?_⟩
  · intro td h
    cases h
    norm_num
  · norm_num [c0]
  · intro td h
    cases h
    norm_num
  · norm_num [c0]

/-- C7: for a fixed active mode, lead status and nominal fan speed, the
planned fan speed level is monotonically non-decreasing in the absolute
temperature error. -/
theorem level_speed_options (k : Nat) :
    FAN_SPEED_LEVELS (speed_options k) = min k 3 := by
  rcases k with _ | _ | _ | k
  · rfl
  · rfl
  · rfl
  · show (3 : Nat) = min (k + 3) 3
    omega

theorem fan_speed_monotone (s : CState) (z : Zone) (mode : Mode)
    (is_lead : Bool) (other_zone_mode : Mode) (e1 e2 : ℚ)
    (hmode : mode = .heat ∨ mode = .cool) (h12 : e1 ≤ e2) :
    FAN_SPEED_LEVELS (calculate_optimal_fan_speed s z mode e1 is_lead other_zone_mode) ≤
      FAN_SPEED_LEVELS (calculate_optimal_fan_speed s z mode e2 is_lead other_zone_mode) := by
  have hn : FAN_SPEED_LEVELS ((s.zone z).nominal_fan_speed) ≤ 3 := by
    cases hv : (s.zone z).nominal_fan_speed <;> simp [FAN_SPEED_LEVELS]
  have core : ∀ n : Nat, n ≤ 3 → ∀ f : ℚ → FanSpeed,
      (∀ e, f e =
        (if 5 < e then speed_options 3
         else if 3 < e then speed_options (min (n + 2) 3)
         else if 3/2 < e then speed_options (min (n + 1) 3)
         else if is_lead then
           if e < 1/2 then speed_options 0
           else speed_options (max (n - 2) 0)
         else speed_options (max (n - 1) 0))) →
      FAN_SPEED_LEVELS (f e1) ≤ FAN_SPEED_LEVELS (f e2) := by
    intro n hn3 f hf
    rw [hf e1, hf e2]
    split_ifs <;>
      first
        | (exfalso; linarith)
        | (simp only [level_speed_options]; omega)
  rcases hmode with h | h <;> subst h
  · exact core _ hn _ (fun e => rfl)
  · exact core _ hn _ (fun e => rfl)

/-- Witness for C7 at a concrete state and error pair. -/
theorem fan_speed_monotone_witness :
    ((Mode.heat = Mode.heat ∨ Mode.heat = Mode.cool) ∧ (1:ℚ) ≤ 4) ∧
    FAN_SPEED_LEVELS (calculate_optimal_fan_speed c0 .z1 .heat 1 true .off) ≤
      FAN_SPEED_LEVELS (calculate_optimal_fan_speed c0 .z1 .heat 4 true .off) :=
  ⟨⟨Or.inl rfl, by norm_num⟩,
   fan_speed_monotone c0 .z1 .heat true .off 1 4 (Or.inl rfl) (by norm_num)⟩

/-- C8: the recent-start count is exactly the number of recorded start
timestamps strictly inside the trailing 3600 seconds (a start 3601 or even
exactly 3600 seconds ago is not counted, one 3599 seconds ago is), and the
dynamic deadband is the configured deadband tripled exactly when that count
reaches `max_starts_per_hour`. -/
theorem recent_start_window (s : CState) (now : ℚ) :
    count_recent_starts s now =
      (s.comp.compressor_start_times.filter (fun t => decide (now - t < 3600))).length ∧
    get_dynamic_deadband s now =
      (if s.cfg.max_starts_per_hour ≤ count_recent_starts s now then s.cfg.deadband * 3
       else s.cfg.deadband) ∧
    count_recent_starts_list now [now - 3601] = 0 ∧
    count_recent_starts_list now [now - 3600] = 0 ∧
    count_recent_starts_list now [now - 3599] = 1 := by
  refine ⟨?_, rfl, ?_, ?_, ?_⟩
  · rw [count_recent_starts, count_recent_starts_list, List.countP_eq_length_filter]
    congr 1
    apply List.filter_congr
    intro t _
    simp only [decide_eq_decide]
    constructor <;> intro <;> linarith
  · have h : ¬ (now - 3600 < now - 3601) := by linarith
    simp [count_recent_starts_list, h]
  · have h : ¬ (now - 3600 < now - 3600) := by linarith
    simp [count_recent_starts_list, h]
  · have h : now - 3600 < now - 3599 := by linarith
    simp [count_recent_starts_list, h]

/-- C10: if no compressor stop has ever been recorded, the minimum-off-time
veto cannot fire, and modes that keep or put the compressor on pass through
`enforce_minimum_runtime` unchanged, regardless of elapsed time. -/
theorem first_start_never_vetoed (s : CState) (now : ℚ) (mode1 mode2 : Mode)
    (hstop : s.comp.compressor_last_stop_time = none)
    (hrun : is_compressor_running mode1 mode2 = true) :
    enforce_minimum_runtime s now mode1 mode2 = (mode1, mode2) := by
  unfold enforce_minimum_runtime
  rw [hstop]
  cases hst : s.comp.compressor_last_start_time <;> simp [hrun]

/-- Witness for C10 on the freshly-constructed controller. -/
theorem first_start_never_vetoed_witness :
    c0.comp.compressor_last_stop_time = none ∧
    is_compressor_running .heat .off = true ∧
    enforce_minimum_runtime c0 12345 .heat .off = (.heat, .off) :=
  ⟨rfl, rfl, first_start_never_vetoed c0 12345 .heat .off rfl rfl⟩

/-- C1 counterexample: a tick aborted by an unavailable temperature does
mutate controller state — the iteration counter has already been
incremented — so the aborted tick does not leave every field unchanged. -/
theorem aborted_tick_counterexample :
    (control_loop c0 0 inpBad).1 ≠ c0 := by
  intro h
  have h2 := congrArg CState.iteration_count h
  simp [control_loop, c0, inpBad] at h2

/-- C1 as amended: when the controller is enabled and either zone
temperature is unavailable, the tick issues no actuation command and leaves
the whole state unchanged except `iteration_count`, which has already been
incremented. -/
theorem aborted_tick_only_bumps_iteration (s : CState) (now : ℚ) (inp : TickInput)
    (hen : s.enabled = true) (hun : inp.temp1 = none ∨ inp.temp2 = none) :
    control_loop s now inp =
      ({ s with iteration_count := s.iteration_count + 1 }, none) := by
  rcases inp with ⟨o1, o2, m1, m2⟩
  rcases hun with h | h <;> simp only at h <;> subst h
  · cases o2 <;> simp [control_loop, hen]
  · cases o1 <;> simp [control_loop, hen]

/-- Witness for C1 (amended) on the concrete aborted tick. -/
theorem aborted_tick_only_bumps_iteration_witness :
    c0.enabled = true ∧ (inpBad.temp1 = none ∨ inpBad.temp2 = none) ∧
    control_loop c0 0 inpBad =
      ({ c0 with iteration_count := c0.iteration_count + 1 }, none) :=
  ⟨rfl, Or.inl rfl,
   aborted_tick_only_bumps_iteration c0 0 inpBad rfl (Or.inl rfl)⟩

/-- Record one temperature sample per tick for zone 1, always in heat mode
(the fold mirrors consecutive calls made by consecutive ticks). -/
def recordSeq : List ℚ → CState → CState
  | [], s => s
  | t :: ts, s => recordSeq ts (update_temperature_history s .z1 t .heat)

/-- C2 (code bug demonstration): seven consecutive heating ticks leave six
entries in the heating sample accumulator — the source appends to a plain
list and never discards old entries, so the list is not bounded by the
5-entry window it is read from. -/
theorem unbounded_rate_samples :
    (recordSeq [65, 66, 67, 68, 69, 70, 71] c0).learn.heating_samples1.length = 6 ∧
    5 < (recordSeq [65, 66, 67, 68, 69, 70, 71] c0).learn.heating_samples1.length := by
  norm_num [recordSeq, update_temperature_history, update_rate, push_heating_sample,
    set_heating_rate, heating_rate, heating_samples, dequeAppend, lastN,
    CState.setZone, CState.zone, Zone.other, c0]

/-- The concrete controller of spec Scenario B: both zones in heat mode,
zone 1 slightly below a target of 70, zone 2 below a target of 72, equal
learned heating rates of 0.5°/min and a learned zone-1 leakage rate of
0.2°/min. -/
def cB : CState :=
  { cfg := {}
    zone1 := { hvac_mode := .heat, target_setpoint := 70 }
    zone2 := { hvac_mode := .heat, target_setpoint := 72 }
    learn := { heating_rate1 := 1/2, heating_rate2 := 1/2, leakage_rate1 := 1/5 }
    comp := {} }

/-- C5 (spec Scenario B): at temperatures 65/65 both zones desire heat,
zone 1's ETA is 10 minutes against zone 2's 14, zone 1 is the lead zone,
the offset is the clamp of 0.2·(14−10) to the default bounds, namely 0.8,
zone 1's commanded setpoint becomes its target minus the offset (heat
direction), and zone 2's commanded setpoint stays its plain target. -/
theorem leakage_compensation_scenario :
    determine_desired_mode cB .z1 65 (some (get_dynamic_deadband cB 0)) = .heat ∧
    determine_desired_mode cB .z2 65 (some (get_dynamic_deadband cB 0)) = .heat ∧
    calculate_time_to_target cB .z1 65 70 .heat = some 10 ∧
    calculate_time_to_target cB .z2 65 72 .heat = some 14 ∧
    determine_lead cB 65 65 .heat .heat = (true, false) ∧
    calculate_compensation_offset cB .z1 (some 4) .heat =
      min (max (1/5 * (14 - 10)) cB.cfg.min_offset) 4 ∧
    calculate_compensation_offset cB .z1 (some 4) .heat = 4/5 ∧
    plan_modes cB 65 65 .heat .heat = (.heat, .heat, 70 - 4/5, 72) := by
  norm_num [determine_desired_mode, get_dynamic_deadband, count_recent_starts,
    count_recent_starts_list, calculate_time_to_target, heating_rate, leakage_rate,
    calculate_compensation_offset, plan_modes, modes_conflict, etaLt, etaSub,
    determine_lead, cB, CState.zone]

/-- The compressor bookkeeping invariant maintained by the tick relation:
recorded starts are separated by at least the minimum off-time, all
recorded starts lie in the past, `compressor_running` agrees with the two
`last_mode` fields, and while the compressor is off every recorded start is
followed by a recorded stop that is also in the past. -/
def CompInv (s : CState) (t : ℚ) : Prop :=
  List.Pairwise (fun a b => a + s.cfg.min_compressor_off_time ≤ b)
    s.comp.compressor_start_times ∧
  (∀ x ∈ s.comp.compressor_start_times, x ≤ t) ∧
  s.comp.compressor_running =
    is_compressor_running s.zone1.last_mode s.zone2.last_mode ∧
  (s.comp.compressor_running = false →
    ∀ x ∈ s.comp.compressor_start_times,
      ∃ p, s.comp.compressor_last_stop_time = some p ∧ x ≤ p ∧ p ≤ t)

theorem compinv_mono (s : CState) (t u : ℚ) (h : CompInv s t) (htu : t ≤ u) :
    CompInv s u := by
  obtain ⟨h1, h2, h3, h4⟩ := h
  refine ⟨h1, fun x hx => le_trans (h2 x hx) htu, h3, fun hr x hx => ?_⟩
  obtain ⟨p, hp, hxp, hpt⟩ := h4 hr x hx
  exact ⟨p, hp, hxp, le_trans hpt htu⟩

theorem compinv_transfer (s s2 : CState) (t : ℚ)
    (hc : s2.comp = s.comp) (hg : s2.cfg = s.cfg)
    (h1 : s2.zone1.last_mode = s.zone1.last_mode)
    (h2 : s2.zone2.last_mode = s.zone2.last_mode) :
    CompInv s t → CompInv s2 t := by
  intro h
  unfold CompInv at h ⊢
  rw [hc, hg, h1, h2]
  exact h

theorem compinv_init (s : CState) (t : ℚ) (h : InitState s) : CompInv s t := by
  obtain ⟨-, -, hm1, -, -, -, -, hm2, -, -, -, hst, hrun, -, -, -, -⟩ := h
  refine ⟨?_, ?_, ?_, ?_⟩
  · rw [hst]
    exact List.Pairwise.nil
  · rw [hst]
    intro x hx
    cases hx
  · rw [hrun, hm1, hm2]
    rfl
  · intro _ x hx
    rw [hst] at hx
    cases hx

/-- The fields of the state that the compressor invariant depends on. -/
def guardView (s : CState) : Config × CompressorState × Mode × Mode :=
  (s.cfg, s.comp, s.zone1.last_mode, s.zone2.last_mode)

theorem push_heating_sample_proj (s : CState) (z : Zone) (x : ℚ) :
    guardView (push_heating_sample s z x) = guardView s := by
  cases z <;> rfl

theorem push_cooling_sample_proj (s : CState) (z : Zone) (x : ℚ) :
    guardView (push_cooling_sample s z x) = guardView s := by
  cases z <;> rfl

theorem push_leakage_sample_proj (s : CState) (z : Zone) (x : ℚ) :
    guardView (push_leakage_sample s z x) = guardView s := by
  cases z <;> rfl

theorem update_rate_proj (s : CState) (z : Zone) (k : ActiveKind) :
    guardView (update_rate s z k) = guardView s := by
  cases z <;> cases k <;>
    (simp only [update_rate]
     split
     · split <;> rfl
     · rfl)

theorem update_leakage_rate_proj (s : CState) (z : Zone) :
    guardView (update_leakage_rate s z) = guardView s := by
  cases z <;>
    (simp only [update_leakage_rate]
     split
     · split <;> rfl
     · rfl)

theorem update_temperature_history_proj (s : CState) (z : Zone) (temp : ℚ)
    (mode : Mode) :
    guardView (update_temperature_history s z temp mode) = guardView s := by
  cases z <;>
    (simp only [update_temperature_history]
     split_ifs) <;>
    first
      | rfl
      | (rw [update_rate_proj, push_heating_sample_proj]; rfl)
      | (rw [update_rate_proj, push_cooling_sample_proj]; rfl)
      | (rw [update_leakage_rate_proj, push_leakage_sample_proj]; rfl)

theorem update_temperature_history_preserves (s : CState) (z : Zone) (temp : ℚ)
    (mode : Mode) :
    (update_temperature_history s z temp mode).cfg = s.cfg ∧
    (update_temperature_history s z temp mode).comp = s.comp ∧
    (update_temperature_history s z temp mode).zone1.last_mode = s.zone1.last_mode ∧
    (update_temperature_history s z temp mode).zone2.last_mode = s.zone2.last_mode := by
  have h := update_temperature_history_proj s z temp mode
  simp only [guardView, Prod.mk.injEq] at h
  exact ⟨h.1, h.2.1, h.2.2.1, h.2.2.2⟩

/-- Invariant preservation through the post-actuation bookkeeping, given
that any start recorded now was cleared by the off-time rule (or no stop
was ever recorded). -/
theorem update_after_apply_inv (s : CState) (t now : ℚ) (n1 n2 : Mode)
    (hinv : CompInv s t) (hle : t ≤ now)
    (hstart : is_compressor_running n1 n2 = true →
      s.comp.compressor_running = false →
      ∀ p, s.comp.compressor_last_stop_time = some p →
        s.cfg.min_compressor_off_time ≤ now - p) :
    CompInv (update_after_apply s now n1 n2) now := by
  obtain ⟨hP, hT, hR, hS⟩ := hinv
  have hcfg : (update_after_apply s now n1 n2).cfg = s.cfg := by
    simp only [update_after_apply]
    split_ifs <;> rfl
  have hz1 : (update_after_apply s now n1 n2).zone1.last_mode = n1 := by
    simp only [update_after_apply]
    split_ifs <;> rfl
  have hz2 : (update_after_apply s now n1 n2).zone2.last_mode = n2 := by
    simp only [update_after_apply]
    split_ifs <;> rfl
  have hrn : (update_after_apply s now n1 n2).comp.compressor_running =
      is_compressor_running n1 n2 := by
    simp only [update_after_apply]
    split_ifs <;> rfl
  cases hnew : is_compressor_running n1 n2 with
  | true =>
      cases hrun : s.comp.compressor_running with
      | false =>
          -- compressor start
          have hcs : (update_after_apply s now n1 n2).comp.compressor_start_times =
              dequeAppend 20 s.comp.compressor_start_times now := by
            simp [update_after_apply, hnew, hrun]
          refine ⟨?_, ?_, ?_, ?_⟩
          · rw [hcfg, hcs]
            refine List.Pairwise.sublist (List.drop_sublist _ _) ?_
            rw [List.pairwise_append]
            refine ⟨hP, List.pairwise_singleton _ _, ?_⟩
            intro a ha b hb
            rw [List.mem_singleton] at hb
            subst hb
            obtain ⟨p, hp, hxp, hpt⟩ := hS hrun a ha
            have hd := hstart hnew hrun p hp
            linarith
          · rw [hcs]
            intro x hx
            have hx2 := (List.drop_sublist _ _).subset hx
            rw [List.mem_append, List.mem_singleton] at hx2
            rcases hx2 with hx2 | hx2
            · exact le_trans (hT x hx2) hle
            · exact le_of_eq hx2
          · rw [hrn, hz1, hz2]
          · rw [hrn, hnew]
            intro habs
            cases habs
      | true =>
          -- still running, no transition
          have hcs : (update_after_apply s now n1 n2).comp.compressor_start_times =
              s.comp.compressor_start_times := by
            simp [update_after_apply, hnew, hrun]
          refine ⟨?_, ?_, ?_, ?_⟩
          · rw [hcfg, hcs]
            exact hP
          · rw [hcs]
            intro x hx
            exact le_trans (hT x hx) hle
          · rw [hrn, hz1, hz2]
          · rw [hrn, hnew]
            intro habs
            cases habs
  | false =>
      cases hrun : s.comp.compressor_running with
      | true =>
          -- compressor stop
          have hcs : (update_after_apply s now n1 n2).comp.compressor_start_times =
              s.comp.compressor_start_times := by
            simp [update_after_apply, hnew, hrun]
          have hsp : (update_after_apply s now n1 n2).comp.compressor_last_stop_time =
              some now := by
            simp [update_after_apply, hnew, hrun]
          refine ⟨?_, ?_, ?_, ?_⟩
          · rw [hcfg, hcs]
            exact hP
          · rw [hcs]
            intro x hx
            exact le_trans (hT x hx) hle
          · rw [hrn, hz1, hz2]
          · intro _ x hx
            rw [hcs] at hx
            rw [hsp]
            exact ⟨now, rfl, le_trans (hT x hx) hle, le_refl now⟩
      | false =>
          -- still off, no transition
          have hcs : (update_after_apply s now n1 n2).comp.compressor_start_times =
              s.comp.compressor_start_times := by
            simp [update_after_apply, hnew, hrun]
          have hsp : (update_after_apply s now n1 n2).comp.compressor_last_stop_time =
              s.comp.compressor_last_stop_time := by
            simp [update_after_apply, hnew, hrun]
          refine ⟨?_, ?_, ?_, ?_⟩
          · rw [hcfg, hcs]
            exact hP
          · rw [hcs]
            intro x hx
            exact le_trans (hT x hx) hle
          · rw [hrn, hz1, hz2]
          · intro _ x hx
            rw [hcs] at hx
            rw [hsp]
            obtain ⟨p, hp, hxp, hpt⟩ := hS hrun x hx
            exact ⟨p, hp, hxp, le_trans hpt hle⟩

/-- The three possible outcomes of `enforce_minimum_runtime`; in the
pass-through case, a compressor start implies the off-time rule was
satisfied (or no stop was ever recorded). -/
theorem enforce_cases (s : CState) (now : ℚ) (m1 m2 : Mode) :
    (enforce_minimum_runtime s now m1 m2 = (m1, m2) ∧
      (is_compressor_running m1 m2 = true →
        s.comp.compressor_running = false →
        ∀ p, s.comp.compressor_last_stop_time = some p →
          s.cfg.min_compressor_off_time ≤ now - p)) ∨
    enforce_minimum_runtime s now m1 m2 = (Mode.fan_only, Mode.fan_only) ∨
    enforce_minimum_runtime s now m1 m2 = (s.zone1.last_mode, s.zone2.last_mode) := by
  simp only [enforce_minimum_runtime]
  cases hstop : s.comp.compressor_last_stop_time with
  | none =>
      cases hst : s.comp.compressor_last_start_time with
      | none =>
          left
          refine ⟨by simp, ?_⟩
          intro _ _ p hp
          cases hp
      | some q =>
          cases hv2 : ((!(is_compressor_running m1 m2) && s.comp.compressor_running) &&
              decide (now - q < s.cfg.min_compressor_runtime)) with
          | true =>
              right; right
              simp [hv2]
          | false =>
              left
              refine ⟨by simp [hv2], ?_⟩
              intro _ _ p hp
              cases hp
  | some p =>
      cases hv : ((is_compressor_running m1 m2 && !s.comp.compressor_running) &&
          decide (now - p < s.cfg.min_compressor_off_time)) with
      | true =>
          right; left
          simp [hv]
      | false =>
          have hside : is_compressor_running m1 m2 = true →
              s.comp.compressor_running = false →
              ∀ q, (some p : Option ℚ) = some q →
                s.cfg.min_compressor_off_time ≤ now - q := by
            intro hr hnr q hq
            cases hq
            rw [hr, hnr] at hv
            simp at hv
            linarith
          cases hst : s.comp.compressor_last_start_time with
          | none =>
              left
              exact ⟨by simp [hv], hside⟩
          | some q =>
              cases hv2 : ((!(is_compressor_running m1 m2) && s.comp.compressor_running) &&
                  decide (now - q < s.cfg.min_compressor_runtime)) with
              | true =>
                  right; right
                  simp [hv, hv2]
              | false =>
                  left
                  exact ⟨by simp [hv, hv2], hside⟩

/-- Invariant preservation through the CycleGuard stage followed by the
bookkeeping stage, for arbitrary post-arbitration modes. -/
theorem guard_step_inv (s : CState) (t now : ℚ) (m1 m2 : Mode)
    (hinv : CompInv s t) (hle : t ≤ now) :
    CompInv (update_after_apply s now (enforce_minimum_runtime s now m1 m2).1
      (enforce_minimum_runtime s now m1 m2).2) now := by
  rcases enforce_cases s now m1 m2 with ⟨h, hside⟩ | h | h
  · rw [h]
    exact update_after_apply_inv s t now m1 m2 hinv hle hside
  · rw [h]
    refine update_after_apply_inv s t now _ _ hinv hle ?_
    intro habs
    simp [is_compressor_running, Mode.isCompressorMode] at habs
  · rw [h]
    refine update_after_apply_inv s t now _ _ hinv hle ?_
    intro habs hrun
    rw [hinv.2.2.1, habs] at hrun
    cases hrun

/-- Restatement of the full tick on available inputs, exposing the stage
structure. -/
theorem control_loop_full (s : CState) (now t1 t2 : ℚ) (cm1 cm2 : Mode)
    (hen : s.enabled = true) :
    (control_loop s now ⟨some t1, some t2, cm1, cm2⟩).1 =
      (let s0 : CState := { s with iteration_count := s.iteration_count + 1 }
       let sA := update_temperature_history s0 .z1 t1 cm1
       let sB := update_temperature_history sA .z2 t2 cm2
       let dd := get_dynamic_deadband sB now
       let d1 := determine_desired_mode sB .z1 t1 (some dd)
       let d2 := determine_desired_mode sB .z2 t2 (some dd)
       let plan := plan_modes sB t1 t2 d1 d2
       let mm := enforce_minimum_runtime sB now plan.1 plan.2.1
       update_after_apply sB now mm.1 mm.2) := by
  simp [control_loop, hen]

/-- The master invariant: every tick-reachable state satisfies `CompInv`. -/
theorem reach_compinv (s : CState) (t : ℚ) (h : Reach s t) : CompInv s t := by
  induction h with
  | init s t hinit => exact compinv_init s t hinit
  | step s t now inp hr hle ih =>
      by_cases hen : s.enabled = true
      · rcases inp with ⟨o1, o2, cm1, cm2⟩
        rcases o1 with _ | t1
        · have hv : (control_loop s now ⟨none, o2, cm1, cm2⟩).1 =
              { s with iteration_count := s.iteration_count + 1 } := by
            cases o2 <;> simp [control_loop, hen]
          rw [hv]
          exact compinv_transfer s _ now rfl rfl rfl rfl (compinv_mono s t now ih hle)
        · rcases o2 with _ | t2
          · have hv : (control_loop s now ⟨some t1, none, cm1, cm2⟩).1 =
                { s with iteration_count := s.iteration_count + 1 } := by
              simp [control_loop, hen]
            rw [hv]
            exact compinv_transfer s _ now rfl rfl rfl rfl (compinv_mono s t now ih hle)
          · rw [control_loop_full s now t1 t2 cm1 cm2 hen]
            have pres1 := update_temperature_history_preserves
              { s with iteration_count := s.iteration_count + 1 } .z1 t1 cm1
            have pres2 := update_temperature_history_preserves
              (update_temperature_history
                { s with iteration_count := s.iteration_count + 1 } .z1 t1 cm1) .z2 t2 cm2
            have hBinv : CompInv (update_temperature_history
                (update_temperature_history
                  { s with iteration_count := s.iteration_count + 1 } .z1 t1 cm1)
                .z2 t2 cm2) t := by
              refine compinv_transfer s _ t ?_ ?_ ?_ ?_ ih
              · rw [pres2.2.1, pres1.2.1]
              · rw [pres2.1, pres1.1]
              · rw [pres2.2.2.1, pres1.2.2.1]
              · rw [pres2.2.2.2, pres1.2.2.2]
            exact guard_step_inv _ t now _ _ hBinv hle
      · have hf : s.enabled = false := by
          cases hsen : s.enabled
          · rfl
          · exact absurd hsen hen
        have hv : (control_loop s now inp).1 = s := by
          simp [control_loop, hf]
        rw [hv]
        exact compinv_mono s t now ih hle

/-- The freshly-constructed controller `c0` is an initial state. -/
theorem initstate_c0 : InitState c0 :=
  ⟨rfl, rfl, rfl, rfl, rfl, rfl, rfl, rfl, rfl, rfl, rfl, rfl, rfl, rfl, rfl,
   rfl, rfl⟩

/-- C9: in the initial state and after every completed control tick,
`compressor_running` equals whether either zone's `last_mode` is an active
compressor mode; both sides are updated from the same finally-applied modes
within the same tick. -/
theorem compressor_running_matches_modes (s : CState) (t : ℚ) (h : Reach s t) :
    s.comp.compressor_running =
      is_compressor_running s.zone1.last_mode s.zone2.last_mode :=
  (reach_compinv s t h).2.2.1

/-- Witness for C9 at the initial state. -/
theorem compressor_running_matches_modes_witness :
    c0.comp.compressor_running =
      is_compressor_running c0.zone1.last_mode c0.zone2.last_mode :=
  compressor_running_matches_modes c0 0 (Reach.init c0 0 initstate_c0)

/-- C3: in every tick-reachable state, recorded compressor start
timestamps are pairwise separated by at least the minimum off-time (the
off-time veto forces fan-only whenever a start would come too early), and
whenever the minimum-runtime rule fires (a stop is desired while the
compressor has been running for less than the minimum runtime) the
substituted previous modes keep the compressor running, so no stop is
recorded. -/
theorem cycle_guard_timing (s : CState) (t : ℚ) (h : Reach s t) :
    List.Pairwise (fun a b => s.cfg.min_compressor_off_time ≤ b - a)
      s.comp.compressor_start_times ∧
    (∀ (now : ℚ) (m1 m2 : Mode) (st : ℚ),
      is_compressor_running m1 m2 = false →
      s.comp.compressor_running = true →
      s.comp.compressor_last_start_time = some st →
      now - st < s.cfg.min_compressor_runtime →
      (update_after_apply s now (enforce_minimum_runtime s now m1 m2).1
          (enforce_minimum_runtime s now m1 m2).2).comp.compressor_running = true ∧
      (update_after_apply s now (enforce_minimum_runtime s now m1 m2).1
          (enforce_minimum_runtime s now m1 m2).2).comp.compressor_last_stop_time =
        s.comp.compressor_last_stop_time) := by
  obtain ⟨hP, hT, hR, hS⟩ := reach_compinv s t h
  constructor
  · exact hP.imp (fun hab => by linarith)
  · intro now m1 m2 st hm hrun hlast hrt
    have henf : enforce_minimum_runtime s now m1 m2 =
        (s.zone1.last_mode, s.zone2.last_mode) := by
      simp only [enforce_minimum_runtime]
      rw [hlast]
      cases hstop : s.comp.compressor_last_stop_time <;>
        simp [hm, hrun, hrt]
    have hnewrun : is_compressor_running s.zone1.last_mode s.zone2.last_mode =
        true := by
      rw [← hR]
      exact hrun
    rw [henf]
    constructor
    · simp [update_after_apply, hnewrun, hrun]
    · simp [update_after_apply, hnewrun, hrun]

/-- A tick input with both temperatures available and both zones cold. -/
def inpStart : TickInput :=
  { temp1 := some 65, temp2 := some 65, current_mode1 := .off, current_mode2 := .off }

/-- The state after one tick of `c0` at time 100 with both zones cold: both
zones desire heat, so the compressor starts. -/
def cAfterStart : CState := (control_loop c0 100 inpStart).1

theorem cAfterStart_comp :
    cAfterStart.comp.compressor_running = true ∧
    cAfterStart.comp.compressor_last_start_time = some 100 ∧
    cAfterStart.comp.compressor_last_stop_time = none ∧
    cAfterStart.cfg.min_compressor_runtime = 180 ∧
    cAfterStart.cfg.min_compressor_off_time = 180 ∧
    cAfterStart.comp.compressor_start_times = [100] := by
  norm_num [cAfterStart, control_loop, c0, inpStart, update_temperature_history,
    dequeAppend, CState.setZone, CState.zone, Zone.other, get_dynamic_deadband,
    count_recent_starts, count_recent_starts_list, determine_desired_mode,
    plan_modes, modes_conflict, calculate_time_to_target, heating_rate,
    etaLt, enforce_minimum_runtime, is_compressor_running, Mode.isCompressorMode,
    update_after_apply]

/-- Witness for C3 in a reachable state with the compressor freshly
started: a premature stop request at time 150 is overridden and no stop is
recorded. -/
theorem cycle_guard_timing_witness :
    (is_compressor_running .fan_only .fan_only = false ∧
     cAfterStart.comp.compressor_running = true ∧
     cAfterStart.comp.compressor_last_start_time = some 100 ∧
     (150 : ℚ) - 100 < cAfterStart.cfg.min_compressor_runtime) ∧
    List.Pairwise (fun a b => cAfterStart.cfg.min_compressor_off_time ≤ b - a)
      cAfterStart.comp.compressor_start_times ∧
    ((update_after_apply cAfterStart 150
        (enforce_minimum_runtime cAfterStart 150 .fan_only .fan_only).1
        (enforce_minimum_runtime cAfterStart 150 .fan_only .fan_only).2).comp.compressor_running
          = true ∧
     (update_after_apply cAfterStart 150
        (enforce_minimum_runtime cAfterStart 150 .fan_only .fan_only).1
        (enforce_minimum_runtime cAfterStart 150 .fan_only .fan_only).2).comp.compressor_last_stop_time
          = cAfterStart.comp.compressor_last_stop_time) := by
  have hreach : Reach cAfterStart 100 :=
    Reach.step c0 0 100 inpStart (Reach.init c0 0 initstate_c0) (by norm_num)
  have hmain := cycle_guard_timing cAfterStart 100 hreach
  obtain ⟨h1, h2, h3, h4, h5, h6⟩ := cAfterStart_comp
  refine ⟨⟨rfl, h1, h2, ?_⟩, hmain.1, hmain.2 150 .fan_only .fan_only 100 rfl h1 h2 ?_⟩
  · rw [h4]
    norm_num
  · rw [h4]
    norm_num

end DualZoneHVAC
